import Mathlib

/-!
Verification development for the openroad multiplayer driving game.

The development shallowly embeds the relay server (server.js, given as
src/unnamed/part_001), the client collectibles manager
(src/js/modules/collectibles.js), the traps manager
(src/js/modules/traps.js), the multiplayer manager
(src/js/modules/multiplayer.js) and the collision / off-track logic of the
game engine (src/js/game.js).  JavaScript numbers are modelled as rationals;
Date.now timestamps as naturals.  Distance comparisons in the source compare
a Euclidean distance with a nonnegative threshold, which is embedded in the
equivalent squared form (d < r with r nonnegative iff d*d < r*r).
-/

namespace OpenRoad

/-- A 3-D vector with rational coordinates, embedding THREE.Vector3. -/
structure Vec3 where
  x : ℚ
  y : ℚ
  z : ℚ

/-- Squared Euclidean distance between two points.  The source compares
`a.distanceTo(b)` with nonnegative thresholds; we compare the square of the
distance with the square of the threshold, which is equivalent. -/
def sqDist (p q : Vec3) : ℚ :=
  (p.x - q.x) ^ 2 + (p.y - q.y) ^ 2 + (p.z - q.z) ^ 2

/-- Association-list lookup, embedding JavaScript object indexing
`obj[key]`. -/
def lookupEntry {α : Type} (l : List (String × α)) (k : String) : Option α :=
  (l.find? (fun p => p.1 == k)).map (fun p => p.2)

/-- Association-list update, embedding `obj[key] = v`. -/
def setEntry {α : Type} (l : List (String × α)) (k : String) (v : α) :
    List (String × α) :=
  (k, v) :: l.filter (fun p => p.1 != k)

/-- Association-list removal, embedding `delete obj[key]`. -/
def removeEntry {α : Type} (l : List (String × α)) (k : String) :
    List (String × α) :=
  l.filter (fun p => p.1 != k)

/-! ## Relay server (src/unnamed/part_001) -/

/-- One entry of `gameState.collectiblesState`: the object
`{collected, collectedBy, collectedAt}` stored by the relay. -/
structure LedgerEntry where
  collected : Bool
  collectedBy : String
  collectedAt : Nat
deriving DecidableEq

/-- One entry of the server-side `players` table. -/
structure Player where
  vehicleId : String
  position : Vec3
  rotationY : ℚ
  playerName : String
  headlightsOn : Bool
  joinTime : Nat

/-- The relay state: the `players` table and the collectible ledger inside
`gameState`. -/
structure ServerState where
  players : List (String × Player)
  collectiblesState : List (String × LedgerEntry)

/-- Payload of a `playerJoin` message. -/
structure JoinData where
  vehicleId : String
  position : Vec3
  rotationY : ℚ
  playerName : String

/-- The `players[socket.id]` record built by the `playerJoin` handler. -/
def joinedPlayer (d : JoinData) (now : Nat) : Player :=
  { vehicleId := d.vehicleId
    position := d.position
    rotationY := d.rotationY
    playerName := d.playerName
    headlightsOn := true
    joinTime := now }

/-- Result of the `playerJoin` handler: the new server state together with
the three emitted payloads.  The handler stores the joiner first, then sends
`currentPlayers` (the whole `players` table, joiner included) to the joiner,
broadcasts `newPlayer` to the others, and sends `gameState` to the joiner. -/
structure JoinReply where
  state : ServerState
  snapshot : List (String × Player)
  broadcastPayload : Player
  gameStatePayload : List (String × LedgerEntry)

/-- Embedding of `socket.on('playerJoin')` (server.js lines 26-49). -/
def handlePlayerJoin (st : ServerState) (sid : String) (d : JoinData)
    (now : Nat) : JoinReply :=
  let p := joinedPlayer d now
  let players' := setEntry st.players sid p
  { state := { st with players := players' }
    snapshot := players'
    broadcastPayload := p
    gameStatePayload := st.collectiblesState }

/-- Embedding of `socket.on('collectibleCollected')` (server.js lines
144-160).  The ledger entry is created only when absent; the returned
boolean records whether the message was rebroadcast to the other players,
and the handler rebroadcasts unconditionally. -/
def handleCollectibleCollected (st : ServerState) (sender itemId : String)
    (now : Nat) : ServerState × Bool :=
  let st' :=
    if (lookupEntry st.collectiblesState itemId).isSome then st
    else
      { st with
        collectiblesState :=
          setEntry st.collectiblesState itemId
            { collected := true, collectedBy := sender, collectedAt := now } }
  (st', true)

/-- Recipients of `socket.broadcast.emit`: every connected socket except the
sender.  This models the transport primitive used by the relay. -/
def broadcastTargets (connected : List String) (sender : String) :
    List String :=
  connected.filter (fun c => c != sender)

/-- The relay messages that mutate server state. -/
inductive ServerEvent where
  | playerJoin (sid : String) (d : JoinData) (now : Nat)
  | headlightsToggle (sid : String) (isOn : Bool)
  | playerMovement (sid : String) (pos : Vec3) (rotY : ℚ)
  | vehicleChange (sid : String) (vid : String)
  | hornSound (sid : String)
  | carCollision (sid : String) (pos : Option Vec3)
  | disconnect (sid : String)
  | collectibleCollected (sid : String) (itemId : String) (now : Nat)

/-- Update the sender entry of the `players` table if present; the handlers
guard every player mutation with `if (players[socket.id])`. -/
def updatePlayer (st : ServerState) (sid : String) (f : Player → Player) :
    ServerState :=
  match lookupEntry st.players sid with
  | none => st
  | some p => { st with players := setEntry st.players sid (f p) }

/-- State effect of one inbound relay message, following the handlers of
server.js one by one. -/
def applyEvent (st : ServerState) (e : ServerEvent) : ServerState :=
  match e with
  | .playerJoin sid d now => (handlePlayerJoin st sid d now).state
  | .headlightsToggle sid b =>
      updatePlayer st sid (fun p => { p with headlightsOn := b })
  | .playerMovement sid pos rot =>
      updatePlayer st sid (fun p => { p with position := pos, rotationY := rot })
  | .vehicleChange sid v =>
      updatePlayer st sid (fun p => { p with vehicleId := v })
  | .hornSound _ => st
  | .carCollision sid pos =>
      match pos with
      | some q => updatePlayer st sid (fun p => { p with position := q })
      | none => st
  | .disconnect sid => { st with players := removeEntry st.players sid }
  | .collectibleCollected sid itemId now =>
      (handleCollectibleCollected st sid itemId now).1

/-- A whole inbound message history, applied in arrival order. -/
def applyEvents (st : ServerState) (es : List ServerEvent) : ServerState :=
  es.foldl applyEvent st

/-! ## Collectibles manager (src/js/modules/collectibles.js) -/

/-- The per-type configuration record from coins.json (`collectibleData`).
Absent JSON fields are falsy in the source; they are modelled as `0`
(points, effectValue) and `""` (effect). -/
structure CollectibleData where
  points : ℚ
  effect : String
  effectValue : ℚ
  respawn : Bool
  respawnTime : Nat

/-- One element of `spawnedCollectibles` (`collectibleInfo`): the spawn
record with its live `collected`/`visible` flags.  `collisionRadius` is
`scale * 0.5` at spawn time.  The `data` reference is always present for
spawned collectibles. -/
structure Collectible where
  cid : String
  ctype : String
  position : Vec3
  collisionRadius : ℚ
  collected : Bool
  collectedBy : Option String
  visible : Bool
  data : CollectibleData

/-- The mutable state of one client CollectiblesManager.  `shieldBarWidth`
is the width written to the shield-bar DOM element; `respawnTimers` records
one entry (the item id) per scheduled `setTimeout` respawn. -/
structure ClientState where
  spawnedCollectibles : List Collectible
  playerScore : ℚ
  playerShield : ℚ
  shieldBarWidth : ℚ
  respawnTimers : List String

/-- Update the collectible object with the given id in place. -/
def updateCollectible (l : List Collectible) (cid : String)
    (f : Collectible → Collectible) : List Collectible :=
  l.map (fun c => if c.cid == cid then f c else c)

/-- Find a spawned collectible by id (the `find` in `markCollected`, and
identification of the object passed to `collectItem`). -/
def findCollectible (st : ClientState) (cid : String) : Option Collectible :=
  st.spawnedCollectibles.find? (fun c => c.cid == cid)

/-- Embedding of `applyCollectibleEffects` (collectibles.js lines 365-385):
truthy `points` are added to `playerScore`; a shield effect adds
`effectValue || 10` to `playerShield` and writes `min(playerShield, 100)`
to the shield bar width. -/
def applyCollectibleEffects (st : ClientState) (d : CollectibleData) :
    ClientState :=
  let st1 :=
    if d.points == 0 then st
    else { st with playerScore := st.playerScore + d.points }
  if d.effect == "shield" then
    let newShield :=
      st1.playerShield + (if d.effectValue == 0 then 10 else d.effectValue)
    { st1 with playerShield := newShield
               shieldBarWidth := min newShield 100 }
  else st1

/-- Embedding of `collectItem` (collectibles.js lines 280-347): skip when
already collected; otherwise mark collected, apply effects, hide the object
and schedule a respawn timer when the type respawns.  The server emit is
modelled at the system level by `localCollectAndSend`. -/
def collectItem (st : ClientState) (cid : String) : ClientState :=
  match findCollectible st cid with
  | none => st
  | some c =>
    if c.collected then st
    else
      let st1 :=
        { st with
          spawnedCollectibles :=
            updateCollectible st.spawnedCollectibles cid
              (fun c0 => { c0 with collected := true, visible := false }) }
      let st2 := applyCollectibleEffects st1 c.data
      if c.data.respawn then
        { st2 with respawnTimers := st2.respawnTimers ++ [cid] }
      else st2

/-- Embedding of `markCollected` (collectibles.js lines 463-502): if the id
is found, mark it collected by the remote player, hide it, and schedule a
respawn timer when the type respawns.  There is no already-collected guard
and no score change. -/
def markCollected (st : ClientState) (cid playerId : String) : ClientState :=
  match findCollectible st cid with
  | none => st
  | some c =>
    let st1 :=
      { st with
        spawnedCollectibles :=
          updateCollectible st.spawnedCollectibles cid
            (fun c0 =>
              { c0 with collected := true, collectedBy := some playerId,
                        visible := false }) }
    if c.data.respawn then
      { st1 with respawnTimers := st1.respawnTimers ++ [cid] }
    else st1

/-- Embedding of `respawnCollectible` (collectibles.js lines 350-362). -/
def respawnCollectible (st : ClientState) (cid : String) : ClientState :=
  { st with
    spawnedCollectibles :=
      updateCollectible st.spawnedCollectibles cid
        (fun c0 => { c0 with collected := false, visible := true }) }

/-! ## Collision tests -/

/-- `this.carCollisionRadius = 1.2` (game.js line 68). -/
def carCollisionRadius : ℚ := 6 / 5

/-- `this.collisionBounceStrength = 0.5` (game.js line 70). -/
def collisionBounceStrength : ℚ := 1 / 2

/-- `this.treeCollisionBounceStrength = 0.7` (game.js line 71). -/
def treeCollisionBounceStrength : ℚ := 7 / 10

/-- A tree obstacle: position and radius. -/
structure Tree where
  position : Vec3
  radius : ℚ

/-- A trap spike: position and `collisionRadius = 1.0` at load time. -/
structure Trap where
  position : Vec3
  collisionRadius : ℚ

/-- A bomb obstacle: position, collision radius and the `isActive` flag in
its userData. -/
structure Bomb where
  position : Vec3
  collisionRadius : ℚ
  isActive : Bool

/-- Overlap test of `checkTreeCollisions` (game.js line 839):
`distance < carCollisionRadius + tree.radius`. -/
def treeOverlap (carPos : Vec3) (t : Tree) : Bool :=
  decide (sqDist carPos t.position < (carCollisionRadius + t.radius) ^ 2)

/-- Overlap test of `checkPlayerCollisions` (game.js line 1135):
`distance < carCollisionRadius * 2`. -/
def playerOverlap (carPos otherPos : Vec3) : Bool :=
  decide (sqDist carPos otherPos < (carCollisionRadius * 2) ^ 2)

/-- Overlap test of `checkBombCollisions` (game.js line 1562):
`distance < carCollisionRadius + bomb.collisionRadius`. -/
def bombOverlap (carPos : Vec3) (b : Bomb) : Bool :=
  decide (sqDist carPos b.position < (carCollisionRadius + b.collisionRadius) ^ 2)

/-- Overlap test of TrapsManager.checkCollisions (traps.js line 76):
`distance < trap.collisionRadius` - the car radius is not involved. -/
def trapOverlap (carPos : Vec3) (t : Trap) : Bool :=
  decide (sqDist carPos t.position < t.collisionRadius ^ 2)

/-- Overlap test of CollectiblesManager.checkCollisions (collectibles.js
lines 265-272): `distance < collectible.collisionRadius * 2` plus the
height gate `|dy| < 2`; the car radius is not involved. -/
def collectibleOverlap (adjustedCarPos : Vec3) (c : Collectible) : Bool :=
  decide (sqDist c.position adjustedCarPos < (c.collisionRadius * 2) ^ 2) &&
    decide (|c.position.y - adjustedCarPos.y| < 2)

/-- The overlap test the spec describes: the distance between the two actor
positions compared against the sum of the two collision radii (in squared
form).  Modelled from the spec for comparison with the code tests. -/
def sumRadiiTest (p q : Vec3) (r1 r2 : ℚ) : Prop :=
  sqDist p q < (r1 + r2) ^ 2

/-- The loop-with-break pattern of `checkTreeCollisions`,
`checkPlayerCollisions` and `checkBombCollisions`: scan in list order and
stop at the first element whose test fires. -/
def firstOverlap {α : Type} (f : α → Bool) : List α → Option α
  | [] => none
  | x :: xs => if f x then some x else firstOverlap f xs

/-- Embedding of `checkTreeCollisions` (game.js lines 822-847): the single
tree whose collision is handled this tick, if any. -/
def checkTreeCollisions (carPos : Vec3) (trees : List Tree) : Option Tree :=
  firstOverlap (treeOverlap carPos) trees

/-- Embedding of `checkPlayerCollisions` (game.js lines 1120-1146): the
single other car whose collision is handled this tick, if any. -/
def checkPlayerCollisions (carPos : Vec3) (others : List Vec3) : Option Vec3 :=
  firstOverlap (playerOverlap carPos) others

/-- Embedding of `checkBombCollisions` (game.js lines 1545-1581): the loop
runs from the end of the bombs array backwards, skips inactive bombs with
`continue`, handles the first overlapping active bomb and then breaks, so
at most one bomb collision is processed per tick. -/
def checkBombCollisions (carPos : Vec3) (bombs : List Bomb) : Option Bomb :=
  firstOverlap (fun b => b.isActive && bombOverlap carPos b) bombs.reverse

/-- Embedding of TrapsManager.checkCollisions (traps.js lines 66-81): the
loop is a forEach with no early exit, so `handleCollision` runs for every
overlapping trap. -/
def trapsCheckCollisions (carPos : Vec3) (traps : List Trap) : List Trap :=
  traps.filter (trapOverlap carPos)

/-- The lowered car position used by CollectiblesManager.checkCollisions
(collectibles.js line 255): `carPosition.y -= 0.3`. -/
def lowerCarPos (carPos : Vec3) : Vec3 :=
  { carPos with y := carPos.y - 3 / 10 }

/-- One forEach step of CollectiblesManager.checkCollisions: skip collected
or hidden items, otherwise collect on overlap. -/
def collectiblesCheckStep (adjusted : Vec3) (s : ClientState) (cid : String) :
    ClientState :=
  match findCollectible s cid with
  | none => s
  | some c =>
    if c.collected || !c.visible then s
    else if collectibleOverlap adjusted c then collectItem s cid else s

/-- Embedding of CollectiblesManager.checkCollisions (collectibles.js lines
250-277): a forEach over all spawned collectibles with no early exit. -/
def collectiblesCheckCollisions (s : ClientState) (carPos : Vec3) :
    ClientState :=
  let adjusted := lowerCarPos carPos
  (s.spawnedCollectibles.map (fun c => c.cid)).foldl
    (collectiblesCheckStep adjusted) s

/-! ## Remote entity interpolation (src/js/modules/multiplayer.js) -/

/-- `const lerpFactor = 0.1` (multiplayer.js line 642). -/
def lerpFactor : ℚ := 1 / 10

/-- THREE.Vector3.lerp: `this += (target - this) * alpha` componentwise, as
used by MultiplayerManager.update (multiplayer.js line 645). -/
def lerpVec (p target : Vec3) (a : ℚ) : Vec3 :=
  { x := p.x + (target.x - p.x) * a
    y := p.y + (target.y - p.y) * a
    z := p.z + (target.z - p.z) * a }

/-- Componentwise betweenness: v lies in the closed interval spanned by u
and w. -/
def betweenQ (u v w : ℚ) : Prop :=
  min u w ≤ v ∧ v ≤ max u w

/-! ## Off-track recovery (src/js/game.js lines 1007-1042 and 1254-1285) -/

/-- The off-track bookkeeping of the game engine: the timestamp when the
car first went off track, the time at which the 5s reset cooldown expires
(set by `resetCarToStart`, cleared conceptually when its setTimeout fires),
and the number of resets performed. -/
structure OffTrackState where
  offTrackStartTime : Option Nat
  cooldownUntil : Option Nat
  resets : Nat
deriving DecidableEq

/-- State at the start of an off-track episode: no timer running, off-track
checking enabled. -/
def freshOffTrack : OffTrackState :=
  { offTrackStartTime := none, cooldownUntil := none, resets := 0 }

/-- `this.canResetCar`: false from a reset until the 5000ms setTimeout of
`resetCarToStart` fires.  Tick times are nondecreasing in every run we
consider, so encoding the flag by its expiry time is faithful. -/
def canResetCar (s : OffTrackState) (now : Nat) : Bool :=
  match s.cooldownUntil with
  | none => true
  | some t => decide (t ≤ now)

/-- One tick of the off-track check in GameEngine.update (game.js lines
1007-1042): guarded by `canResetCar`; skipped near the start line and for
off-road-capable vehicles; starts the timer on the first off-track tick,
resets the car once the timer exceeds 1000ms (grace period), and clears the
timer when back on track.  `resetCarToStart` (lines 1254-1285) clears the
timer and disables checking for 5000ms. -/
def offTrackStep (s : OffTrackState) (now : Nat)
    (onTrack nearStartLine offRoadCapable : Bool) : OffTrackState :=
  if canResetCar s now then
    if !onTrack && !nearStartLine && !offRoadCapable then
      match s.offTrackStartTime with
      | none => { s with offTrackStartTime := some now }
      | some t0 =>
        if 1000 < now - t0 then
          { offTrackStartTime := none
            cooldownUntil := some (now + 5000)
            resets := s.resets + 1 }
        else s
    else { s with offTrackStartTime := none }
  else s

/-- A run of ticks during which the car stays off track, away from the
start line, in a vehicle that is not off-road capable. -/
def offTrackRun (s : OffTrackState) (ticks : List Nat) : OffTrackState :=
  ticks.foldl (fun s now => offTrackStep s now false false false) s

/-! ## Ride height (src/js/game.js lines 1177-1251) -/

/-- `const groundHeight = 1.0` (game.js line 1228). -/
def groundHeight : ℚ := 1

/-- `const transitionDistance = 30` (game.js line 1232). -/
def transitionDistance : ℚ := 30

/-- The target elevation computed by GameEngine.adjustCarHeight (game.js
lines 1234-1247) from the minimum planar distance to the track samples and
the elevation of the closest sample. -/
def targetHeight (minDistance closestY : ℚ) : ℚ :=
  if minDistance < transitionDistance then
    let blendFactor := max 0 (minDistance / transitionDistance)
    closestY * (1 - blendFactor) + groundHeight * blendFactor
  else groundHeight

/-! ## System level: one relay plus its clients -/

/-- A relay with the collectibles manager of every connected client. -/
structure SystemState where
  server : ServerState
  clients : List (String × ClientState)

/-- Apply a function to one client state. -/
def updateClient (sys : SystemState) (who : String)
    (f : ClientState → ClientState) : SystemState :=
  { sys with
    clients := sys.clients.map (fun p => if p.1 == who then (p.1, f p.2) else p) }

/-- Delivery of one `collectibleCollected` message to the relay: the server
handler runs, and because it rebroadcasts unconditionally, every client
other than the sender receives `playerCollectedItem` and runs
`markCollected` (multiplayer.js lines 197-204, game.js lines 1169-1174). -/
def deliverCollectibleCollected (sys : SystemState) (sender itemId : String)
    (now : Nat) : SystemState :=
  let r := handleCollectibleCollected sys.server sender itemId now
  { server := r.1
    clients :=
      sys.clients.map (fun p =>
        if p.1 == sender then p
        else (p.1, markCollected p.2 itemId sender)) }

/-- A local pickup followed by its network emission: `collectItem` runs on
the collector and emits `collectibleCollected`, which the relay then
delivers. -/
def localCollectAndSend (sys : SystemState) (who itemId : String)
    (now : Nat) : SystemState :=
  let sys1 := updateClient sys who (fun c => collectItem c itemId)
  deliverCollectibleCollected sys1 who itemId now

/-- Number of respawn timers a client holds for one item. -/
def timersFor (c : ClientState) (itemId : String) : Nat :=
  (c.respawnTimers.filter (fun i => i == itemId)).length

/-- Number of respawn timers scheduled for one item across the system. -/
def systemTimers (sys : SystemState) (itemId : String) : Nat :=
  (sys.clients.map (fun p => timersFor p.2 itemId)).sum

/-- Score of one client, 0 if absent. -/
def scoreOf (sys : SystemState) (who : String) : ℚ :=
  match lookupEntry sys.clients who with
  | some c => c.playerScore
  | none => 0

/-- The id-score pairs of all clients. -/
def clientScores (sys : SystemState) : List (String × ℚ) :=
  sys.clients.map (fun p => (p.1, p.2.playerScore))

/-! ## Concrete fixtures -/

/-- Configuration of the gold coin used in the spec scenario: value 50,
respawning. -/
def goldData : CollectibleData :=
  { points := 50, effect := "", effectValue := 0, respawn := true,
    respawnTime := 10000 }

/-- A spawned gold coin. -/
def goldAt (cid : String) (pos : Vec3) : Collectible :=
  { cid := cid, ctype := "gold", position := pos, collisionRadius := 1 / 2,
    collected := false, collectedBy := none, visible := true, data := goldData }

/-- A client that has spawned the single collectible gold-1. -/
def clientWithGold : ClientState :=
  { spawnedCollectibles := [goldAt "gold-1" ⟨30, 1, -60⟩]
    playerScore := 0, playerShield := 0, shieldBarWidth := 0,
    respawnTimers := [] }

/-- Two clients A and B, both having spawned gold-1, with an empty relay
ledger. -/
def twoClientSystem : SystemState :=
  { server := { players := [], collectiblesState := [] }
    clients := [("A", clientWithGold), ("B", clientWithGold)] }

/-- The spec scenario of claim C2: A collects gold-1 and the message is
delivered, then a racing `collectibleCollected` for gold-1 from B is
delivered afterwards. -/
def c2Scenario : SystemState :=
  deliverCollectibleCollected
    (localCollectAndSend twoClientSystem "A" "gold-1" 0) "B" "gold-1" 5

/-- A client whose only collectible is already collected locally (for the
claim C2 witness). -/
def clientGoldCollected : ClientState :=
  { spawnedCollectibles :=
      [{ goldAt "gold-1" ⟨30, 1, -60⟩ with collected := true, visible := false }]
    playerScore := 50, playerShield := 0, shieldBarWidth := 0,
    respawnTimers := ["gold-1"] }

/-- Relay state after A collected gold-1 (for claim C1). -/
def afterFirstCollect : ServerState :=
  (handleCollectibleCollected ⟨[], []⟩ "A" "gold-1" 0).1

/-- A relay that already holds one participant P (for claim C3). -/
def serverWithP : ServerState :=
  { players :=
      [("P", joinedPlayer ⟨"sports-car", ⟨0, 0, 0⟩, 0, "Pat"⟩ 0)]
    collectiblesState := [] }

/-- Join data used by the C3 scenario. -/
def joinDataJ : JoinData := ⟨"truck", ⟨1, 0, 1⟩, 0, "Jo"⟩

/-- Client holding two uncollected gold coins that both overlap the car
position ⟨0, 0.3, 0⟩ in the same tick (for claim C4). -/
def clientTwoNearGold : ClientState :=
  { spawnedCollectibles :=
      [goldAt "gold-1" ⟨3 / 10, 0, 0⟩, goldAt "gold-2" ⟨0, 0, 3 / 10⟩]
    playerScore := 0, playerShield := 0, shieldBarWidth := 0,
    respawnTimers := [] }

/-- The client state after one collectibles collision tick with the car at
⟨0, 0.3, 0⟩, both coins in range (for claim C4). -/
def c4Tick : ClientState :=
  collectiblesCheckCollisions clientTwoNearGold ⟨0, 3 / 10, 0⟩

/-- A trap spike at the origin with the load-time radius 1.0 (for claims C4
and C5). -/
def trapAtOrigin : Trap := { position := ⟨0, 0, 0⟩, collisionRadius := 1 }

/-- A second trap spike close to the first (for claim C4). -/
def trapNearOrigin : Trap := { position := ⟨1 / 2, 0, 0⟩, collisionRadius := 1 }

/-- A tree too far from the origin to collide (for claim C4). -/
def treeFar : Tree := { position := ⟨10, 0, 0⟩, radius := 1 }

/-- A tree close enough to the origin to collide (for claim C4). -/
def treeNear : Tree := { position := ⟨1, 0, 0⟩, radius := 1 }

/-- Configuration of a heart power-up: shield effect worth 10 (for claim
C9). -/
def heartData : CollectibleData :=
  { points := 0, effect := "shield", effectValue := 10, respawn := false,
    respawnTime := 0 }

/-- A client whose shield already stands at 95 (for claim C9). -/
def clientShield95 : ClientState :=
  { spawnedCollectibles := [], playerScore := 0, playerShield := 95,
    shieldBarWidth := 95, respawnTimers := [] }

/-- A relay whose ledger already records gold-1 as collected by A (for
claim C10). -/
def serverWithLedger : ServerState :=
  { players := [], collectiblesState := [("gold-1", ⟨true, "A", 0⟩)] }

/-- A later message history: A disconnects, B sends a duplicate collection
for gold-1 and honks (for claim C10). -/
def laterHistory : List ServerEvent :=
  [.disconnect "A", .collectibleCollected "B" "gold-1" 9, .hornSound "B"]

/-! ## Helper lemmas -/

theorem lookupEntry_cons_of_pos {α : Type} {a : String × α}
    {l : List (String × α)} {j : String} (h : (a.1 == j) = true) :
    lookupEntry (a :: l) j = some a.2 := by
  unfold lookupEntry
  simp [List.find?_cons, h]

theorem lookupEntry_cons_of_neg {α : Type} {a : String × α}
    {l : List (String × α)} {j : String} (h : (a.1 == j) = false) :
    lookupEntry (a :: l) j = lookupEntry l j := by
  unfold lookupEntry
  simp [List.find?_cons, h]

theorem lookup_setEntry_self {α : Type} (l : List (String × α)) (k : String)
    (v : α) : lookupEntry (setEntry l k v) k = some v := by
  unfold setEntry
  rw [lookupEntry_cons_of_pos (by simp)]

theorem lookup_filter_ne {α : Type} (l : List (String × α)) (k j : String)
    (h : j ≠ k) :
    lookupEntry (l.filter (fun p => p.1 != k)) j = lookupEntry l j := by
  induction l with
  | nil => rfl
  | cons a l ih =>
    rw [List.filter_cons]
    rcases eq_or_ne a.1 k with hk | hk
    · have h1 : (a.1 != k) = false := by simp [hk]
      have h2 : (a.1 == j) = false := by
        rw [hk]
        exact beq_eq_false_iff_ne.mpr fun hh => h hh.symm
      rw [h1]
      simp only [Bool.false_eq_true, if_false]
      rw [ih, lookupEntry_cons_of_neg h2]
    · have h1 : (a.1 != k) = true := by simp [hk]
      rw [h1]
      simp only [if_true]
      cases hj : (a.1 == j) with
      | true => rw [lookupEntry_cons_of_pos hj, lookupEntry_cons_of_pos hj]
      | false => rw [lookupEntry_cons_of_neg hj, lookupEntry_cons_of_neg hj, ih]

theorem lookup_setEntry_ne {α : Type} (l : List (String × α)) (k j : String)
    (v : α) (h : j ≠ k) :
    lookupEntry (setEntry l k v) j = lookupEntry l j := by
  unfold setEntry
  have hk : (((k, v) : String × α).1 == j) = false :=
    beq_eq_false_iff_ne.mpr fun hh => h hh.symm
  rw [lookupEntry_cons_of_neg hk, lookup_filter_ne l k j h]

/-! ## Claim theorems -/

/-- Claim C1 (corrected), counterexample: the relay has already recorded
gold-1 as collected (by A), a second collectibleCollected for gold-1
arrives from B, the ledger entry does not transition, and yet the handler
still rebroadcasts the message instead of dropping it. -/
theorem collectibleCollected_refwd_counterexample :
    (lookupEntry afterFirstCollect.collectiblesState "gold-1").isSome = true ∧
    ((handleCollectibleCollected afterFirstCollect "B" "gold-1" 5).1).collectiblesState
      = afterFirstCollect.collectiblesState ∧
    (handleCollectibleCollected afterFirstCollect "B" "gold-1" 5).2 = true := by
  have h : (lookupEntry afterFirstCollect.collectiblesState "gold-1").isSome = true := by
    decide
  refine ⟨h, ?_, rfl⟩
  simp [handleCollectibleCollected, h]

/-- Claim C1 (amended): every collectibleCollected message is rebroadcast
to the other participants unconditionally; only the ledger mutation is
guarded, first-arrival-wins (an existing entry is never overwritten, and a
missing entry is created as collected by the sender). -/
theorem collectibleCollected_forward_and_ledger (st : ServerState)
    (sender itemId : String) (now : Nat) :
    (handleCollectibleCollected st sender itemId now).2 = true ∧
    ((lookupEntry st.collectiblesState itemId).isSome →
      (handleCollectibleCollected st sender itemId now).1 = st) ∧
    (lookupEntry st.collectiblesState itemId = none →
      lookupEntry
          (handleCollectibleCollected st sender itemId now).1.collectiblesState
          itemId =
        some { collected := true, collectedBy := sender, collectedAt := now }) := by
  refine ⟨rfl, ?_, ?_⟩
  · intro h
    simp [handleCollectibleCollected, h]
  · intro h
    simp [handleCollectibleCollected, h, lookup_setEntry_self]

/-- Witness for the amended C1 theorem at concrete inputs. -/
theorem collectibleCollected_forward_and_ledger_witness :
    (handleCollectibleCollected afterFirstCollect "B" "gold-1" 5).1 =
        afterFirstCollect ∧
    lookupEntry
        (handleCollectibleCollected ⟨[], []⟩ "A" "gold-1" 0).1.collectiblesState
        "gold-1" =
      some { collected := true, collectedBy := "A", collectedAt := 0 } :=
  ⟨(collectibleCollected_forward_and_ledger afterFirstCollect "B" "gold-1" 5).2.1
      (by decide),
   (collectibleCollected_forward_and_ledger ⟨[], []⟩ "A" "gold-1" 0).2.2 rfl⟩

/-- Claim C3 (corrected), counterexample: the playerJoin handler stores the
joiner before emitting currentPlayers, so the snapshot sent to the joiner J
contains J itself, not only the other participants. -/
theorem join_snapshot_counterexample :
    (lookupEntry (handlePlayerJoin serverWithP "J" joinDataJ 7).snapshot
        "J").isSome = true := by
  decide

/-- Claim C3 (amended): the join snapshot contains the joiner itself
together with every other stored participant unchanged (the joiner filters
itself out client-side), and the participantJoined broadcast reaches
exactly the connected sockets other than the joiner. -/
theorem join_snapshot_and_broadcast (st : ServerState) (sid : String)
    (d : JoinData) (now : Nat) (conn : List String) :
    lookupEntry (handlePlayerJoin st sid d now).snapshot sid =
        some (joinedPlayer d now) ∧
    (∀ j, j ≠ sid →
      lookupEntry (handlePlayerJoin st sid d now).snapshot j =
        lookupEntry st.players j) ∧
    sid ∉ broadcastTargets conn sid ∧
    (∀ c, c ∈ conn → c ≠ sid → c ∈ broadcastTargets conn sid) := by
  refine ⟨?_, ?_, ?_, ?_⟩
  · simpa [handlePlayerJoin] using
      lookup_setEntry_self st.players sid (joinedPlayer d now)
  · intro j hj
    simpa [handlePlayerJoin] using
      lookup_setEntry_ne st.players sid j (joinedPlayer d now) hj
  · simp [broadcastTargets]
  · intro c hc hne
    simp [broadcastTargets, List.mem_filter, hc, hne]

theorem updatePlayer_collectibles (st : ServerState) (sid : String)
    (f : Player → Player) :
    (updatePlayer st sid f).collectiblesState = st.collectiblesState := by
  unfold updatePlayer
  cases lookupEntry st.players sid <;> rfl

theorem applyEvent_collectibles (st : ServerState) (e : ServerEvent) :
    (applyEvent st e).collectiblesState = st.collectiblesState ∨
    ∃ sid itemId now,
      lookupEntry st.collectiblesState itemId = none ∧
      (applyEvent st e).collectiblesState =
        setEntry st.collectiblesState itemId
          { collected := true, collectedBy := sid, collectedAt := now } := by
  cases e with
  | playerJoin sid d now => left; simp [applyEvent, handlePlayerJoin]
  | headlightsToggle sid b => left; simp [applyEvent, updatePlayer_collectibles]
  | playerMovement sid pos rot => left; simp [applyEvent, updatePlayer_collectibles]
  | vehicleChange sid v => left; simp [applyEvent, updatePlayer_collectibles]
  | hornSound sid => left; simp [applyEvent]
  | carCollision sid pos =>
    cases pos with
    | none => left; simp [applyEvent]
    | some q => left; simp [applyEvent, updatePlayer_collectibles]
  | disconnect sid => left; simp [applyEvent]
  | collectibleCollected sid itemId now =>
    by_cases hit : (lookupEntry st.collectiblesState itemId).isSome
    · left
      simp [applyEvent, handleCollectibleCollected, hit]
    · right
      refine ⟨sid, itemId, now, Option.not_isSome_iff_eq_none.mp hit, ?_⟩
      simp [applyEvent, handleCollectibleCollected, hit]

theorem ledger_preserved_event (st : ServerState) (e : ServerEvent)
    (itemId : String) (en : LedgerEntry)
    (h : lookupEntry st.collectiblesState itemId = some en) :
    lookupEntry (applyEvent st e).collectiblesState itemId = some en := by
  rcases applyEvent_collectibles st e with hsame | ⟨sid, j, now, hnone, hset⟩
  · rw [hsame]; exact h
  · have hne : itemId ≠ j := by
      intro hEq
      rw [hEq, hnone] at h
      cases h
    rw [hset, lookup_setEntry_ne _ _ _ _ hne]
    exact h

theorem ledger_preserved_events (es : List ServerEvent) (st : ServerState)
    (itemId : String) (en : LedgerEntry)
    (h : lookupEntry st.collectiblesState itemId = some en) :
    lookupEntry (applyEvents st es).collectiblesState itemId = some en := by
  induction es generalizing st with
  | nil => exact h
  | cons e es ih => exact ih _ (ledger_preserved_event st e itemId en h)

theorem ledger_entries_collected (es : List ServerEvent) (st : ServerState)
    (hinv : ∀ i en, lookupEntry st.collectiblesState i = some en →
      en.collected = true) :
    ∀ i en, lookupEntry (applyEvents st es).collectiblesState i = some en →
      en.collected = true := by
  induction es generalizing st with
  | nil => exact hinv
  | cons e es ih =>
    refine ih _ ?_
    intro i en h
    rcases applyEvent_collectibles st e with hsame | ⟨sid, j, now, hnone, hset⟩
    · rw [hsame] at h
      exact hinv i en h
    · rw [hset] at h
      rcases eq_or_ne i j with hEq | hne
      · subst hEq
        rw [lookup_setEntry_self] at h
        cases h
        rfl
      · rw [lookup_setEntry_ne _ _ _ _ hne] at h
        exact hinv i en h

/-- Claim C10 (confirmed): a relay ledger entry, once created, is preserved
verbatim by every later message (the relay never resets it and schedules no
respawn), the gameState payload a later joiner receives still carries it,
and every entry ever created in a relay run started from the empty boot
state has its collected flag set. -/
theorem ledger_monotone (es : List ServerEvent) (st : ServerState)
    (itemId : String) (en : LedgerEntry)
    (h : lookupEntry st.collectiblesState itemId = some en)
    (joiner : String) (d : JoinData) (now : Nat) :
    lookupEntry (applyEvents st es).collectiblesState itemId = some en ∧
    lookupEntry ((handlePlayerJoin (applyEvents st es) joiner d
        now).gameStatePayload) itemId = some en ∧
    (∀ es2 i en2,
      lookupEntry (applyEvents ⟨[], []⟩ es2).collectiblesState i = some en2 →
        en2.collected = true) := by
  refine ⟨ledger_preserved_events es st itemId en h, ?_, ?_⟩
  · simpa [handlePlayerJoin] using ledger_preserved_events es st itemId en h
  · intro es2 i en2 h2
    refine ledger_entries_collected es2 ⟨[], []⟩ ?_ i en2 h2
    intro i en hAbs
    simp [lookupEntry] at hAbs

/-- Witness for the C10 theorem at concrete inputs. -/
theorem ledger_monotone_witness :
    lookupEntry (applyEvents serverWithLedger laterHistory).collectiblesState
        "gold-1" = some ⟨true, "A", 0⟩ ∧
    lookupEntry ((handlePlayerJoin (applyEvents serverWithLedger laterHistory)
        "C" joinDataJ 99).gameStatePayload) "gold-1" = some ⟨true, "A", 0⟩ :=
  ⟨(ledger_monotone laterHistory serverWithLedger "gold-1" ⟨true, "A", 0⟩
      (by decide) "C" joinDataJ 99).1,
   (ledger_monotone laterHistory serverWithLedger "gold-1" ⟨true, "A", 0⟩
      (by decide) "C" joinDataJ 99).2.1⟩

/-- Witness for the amended C3 theorem at concrete inputs. -/
theorem join_snapshot_and_broadcast_witness :
    lookupEntry (handlePlayerJoin serverWithP "J" joinDataJ 7).snapshot "P" =
        lookupEntry serverWithP.players "P" ∧
    "J" ∉ broadcastTargets ["P", "J"] "J" ∧
    "P" ∈ broadcastTargets ["P", "J"] "J" :=
  ⟨(join_snapshot_and_broadcast serverWithP "J" joinDataJ 7 ["P", "J"]).2.1
      "P" (by decide),
   (join_snapshot_and_broadcast serverWithP "J" joinDataJ 7 ["P", "J"]).2.2.1,
   (join_snapshot_and_broadcast serverWithP "J" joinDataJ 7 ["P", "J"]).2.2.2
      "P" (by decide) (by decide)⟩

theorem lerp_coord_between (u v a : ℚ) (h0 : 0 ≤ a) (h1 : a ≤ 1) :
    betweenQ u (u + (v - u) * a) v := by
  unfold betweenQ
  rcases le_total u v with h | h
  · rw [min_eq_left h, max_eq_right h]
    constructor <;> nlinarith
  · rw [min_eq_right h, max_eq_left h]
    constructor <;> nlinarith

/-- Claim C6 (confirmed): for any blend factor strictly between 0 and 1,
one interpolation tick scales the squared remaining distance by the factor
(1-a)^2, hence strictly decreases it whenever it is positive, and each
coordinate of the new position stays between the old position and the
target, so the tick never moves past the target. -/
theorem lerp_contracts (a : ℚ) (p t : Vec3) (h0 : 0 < a) (h1 : a < 1) :
    sqDist (lerpVec p t a) t = (1 - a) ^ 2 * sqDist p t ∧
    (0 < sqDist p t → sqDist (lerpVec p t a) t < sqDist p t) ∧
    betweenQ p.x (lerpVec p t a).x t.x ∧
    betweenQ p.y (lerpVec p t a).y t.y ∧
    betweenQ p.z (lerpVec p t a).z t.z := by
  have heq : sqDist (lerpVec p t a) t = (1 - a) ^ 2 * sqDist p t := by
    simp only [sqDist, lerpVec]
    ring
  refine ⟨heq, ?_, lerp_coord_between _ _ _ (le_of_lt h0) (le_of_lt h1),
    lerp_coord_between _ _ _ (le_of_lt h0) (le_of_lt h1),
    lerp_coord_between _ _ _ (le_of_lt h0) (le_of_lt h1)⟩
  intro hpos
  rw [heq]
  have hf : (1 - a) ^ 2 < 1 := by nlinarith
  calc (1 - a) ^ 2 * sqDist p t < 1 * sqDist p t :=
        mul_lt_mul_of_pos_right hf hpos
    _ = sqDist p t := one_mul _

/-- Witness for C6: one tick at the code blend factor 0.1 from the origin
towards (10, 0, 10), the scenario of the spec. -/
theorem lerp_contracts_witness :
    sqDist (lerpVec ⟨0, 0, 0⟩ ⟨10, 0, 10⟩ lerpFactor) ⟨10, 0, 10⟩ <
        sqDist ⟨0, 0, 0⟩ ⟨10, 0, 10⟩ ∧
    betweenQ (0 : ℚ) (lerpVec ⟨0, 0, 0⟩ ⟨10, 0, 10⟩ lerpFactor).x 10 :=
  ⟨(lerp_contracts lerpFactor ⟨0, 0, 0⟩ ⟨10, 0, 10⟩ (by norm_num [lerpFactor])
      (by norm_num [lerpFactor])).2.1 (by norm_num [sqDist]),
   (lerp_contracts lerpFactor ⟨0, 0, 0⟩ ⟨10, 0, 10⟩ (by norm_num [lerpFactor])
      (by norm_num [lerpFactor])).2.2.1⟩

theorem offTrackRun_cons (s : OffTrackState) (t : Nat) (ts : List Nat) :
    offTrackRun s (t :: ts) =
      offTrackRun (offTrackStep s t false false false) ts := rfl

theorem cooldown_frozen (ts : List Nat) (s : OffTrackState) (T : Nat)
    (hcd : s.cooldownUntil = some T) (hts : ∀ t ∈ ts, t < T) :
    offTrackRun s ts = s := by
  induction ts with
  | nil => rfl
  | cons t ts ih =>
    have hstep : offTrackStep s t false false false = s := by
      unfold offTrackStep canResetCar
      rw [hcd]
      have hT : ¬ T ≤ t := Nat.not_le.mpr (hts t (List.mem_cons_self t ts))
      simp [hT]
    rw [offTrackRun_cons, hstep]
    exact ih fun t' ht' => hts t' (List.mem_cons_of_mem t ht')

theorem offTrackRun_append (s : OffTrackState) (l1 l2 : List Nat) :
    offTrackRun s (l1 ++ l2) = offTrackRun (offTrackRun s l1) l2 := by
  simp [offTrackRun, List.foldl_append]

theorem grace_frozen (mids : List Nat) (t0 r : Nat)
    (hm : ∀ m ∈ mids, m ≤ t0 + 1000) :
    offTrackRun ⟨some t0, none, r⟩ mids = ⟨some t0, none, r⟩ := by
  induction mids with
  | nil => rfl
  | cons m ms ih =>
    have hstep : offTrackStep ⟨some t0, none, r⟩ m false false false =
        ⟨some t0, none, r⟩ := by
      unfold offTrackStep canResetCar
      have hng : ¬ 1000 < m - t0 := by
        have := hm m (List.mem_cons_self m ms)
        omega
      simp [hng]
    rw [offTrackRun_cons, hstep]
    exact ih fun m' hm' => hm m' (List.mem_cons_of_mem m hm')

/-- Claim C7 (confirmed): a car continuously off track away from the start
line is relocated exactly once.  The first off-track tick starts the timer,
ticks within the 1000ms grace period do nothing, the first tick past the
grace period performs the reset, and because off-track checking is
suspended until 5000ms after the reset, every further tick inside the
cooldown window performs no second reset even though the car is still off
track. -/
theorem offTrack_reset_once (t0 t1 : Nat) (mids ts : List Nat)
    (hmids : ∀ m ∈ mids, m ≤ t0 + 1000)
    (hgrace : t0 + 1000 < t1) (hcool : ∀ t ∈ ts, t < t1 + 5000) :
    (offTrackRun freshOffTrack (t0 :: (mids ++ t1 :: ts))).resets = 1 ∧
    (offTrackRun freshOffTrack (t0 :: (mids ++ t1 :: ts))).cooldownUntil =
      some (t1 + 5000) := by
  have h1 : offTrackStep freshOffTrack t0 false false false =
      { offTrackStartTime := some t0, cooldownUntil := none, resets := 0 } := by
    rfl
  have h2 : offTrackStep
      { offTrackStartTime := some t0, cooldownUntil := none, resets := 0 }
      t1 false false false =
      { offTrackStartTime := none, cooldownUntil := some (t1 + 5000),
        resets := 1 } := by
    unfold offTrackStep canResetCar
    have hlt : 1000 < t1 - t0 := by omega
    simp [hlt]
  rw [offTrackRun_cons, h1, offTrackRun_append, grace_frozen mids t0 0 hmids,
    offTrackRun_cons, h2, cooldown_frozen ts _ (t1 + 5000) rfl hcool]
  exact ⟨rfl, rfl⟩

/-- Witness for C7: off-track ticks at 0ms, 400ms and 900ms start and hold
the timer, the tick at 1500ms triggers the single reset, and further
off-track ticks at 2000ms and 6400ms (inside the cooldown) leave the reset
count at one. -/
theorem offTrack_reset_once_witness :
    (offTrackRun freshOffTrack [0, 400, 900, 1500, 2000, 6400]).resets = 1 :=
  (offTrack_reset_once 0 1500 [400, 900] [2000, 6400] (by decide) (by omega)
    (by decide)).1

/-- Claim C8 (confirmed): the ride-height target elevation is continuous at
the transition distance.  For every tolerance there is an explicit positive
window width such that every nonnegative distance within the window of the
transition distance yields a target elevation within the tolerance of the
ground elevation. -/
theorem targetHeight_continuous (closestY eps : ℚ) (heps : 0 < eps) :
    0 < 30 * eps / (|closestY - groundHeight| + eps) ∧
    ∀ d : ℚ, 0 ≤ d →
      |d - transitionDistance| < 30 * eps / (|closestY - groundHeight| + eps) →
      |targetHeight d closestY - groundHeight| < eps := by
  have habsn : (0 : ℚ) ≤ |closestY - groundHeight| := abs_nonneg _
  have hden : (0 : ℚ) < |closestY - groundHeight| + eps := by linarith
  constructor
  · positivity
  · intro d hd hnear
    unfold targetHeight transitionDistance groundHeight at *
    by_cases hlt : d < 30
    · rw [if_pos hlt]
      show |closestY * (1 - max 0 (d / 30)) + 1 * max 0 (d / 30) - 1| < eps
      rw [max_eq_right (div_nonneg hd (by norm_num))]
      rw [show closestY * (1 - d / 30) + 1 * (d / 30) - 1 =
          (closestY - 1) * ((30 - d) / 30) from by ring]
      rw [abs_mul,
        abs_of_nonneg (div_nonneg (by linarith : (0 : ℚ) ≤ 30 - d)
          (by norm_num : (0 : ℚ) ≤ (30 : ℚ)))]
      have h30 : |d - 30| = 30 - d := by
        rw [abs_of_nonpos (by linarith)]
        ring
      rw [h30, lt_div_iff₀ hden] at hnear
      have hD : (0 : ℚ) ≤ 30 - d := by linarith
      have h2 : |closestY - 1| * (30 - d) ≤ (30 - d) * (|closestY - 1| + eps) := by
        nlinarith [mul_nonneg hD heps.le]
      rw [show |closestY - 1| * ((30 - d) / 30) = |closestY - 1| * (30 - d) / 30
        from by ring]
      rw [div_lt_iff₀ (by norm_num : (0 : ℚ) < 30)]
      calc |closestY - 1| * (30 - d) ≤ (30 - d) * (|closestY - 1| + eps) := h2
        _ < 30 * eps := hnear
        _ = eps * 30 := by ring
    · rw [if_neg hlt]
      simpa using heps

/-- Witness for C8: tolerance 1/2 around the transition boundary with
closest sample elevation 7, checked at distance 28. -/
theorem targetHeight_continuous_witness :
    |targetHeight 28 7 - groundHeight| < 1 / 2 :=
  (targetHeight_continuous 7 (1 / 2) (by norm_num)).2 28 (by norm_num)
    (by rw [abs_sub_lt_iff]; norm_num [transitionDistance, groundHeight])

/-- Claim C9 (corrected), counterexample: collecting a shield power-up
worth 10 at stored shield 95 leaves the stored player shield at 105, above
100. -/
theorem shield_value_counterexample :
    (applyCollectibleEffects clientShield95 heartData).playerShield = 105 ∧
    ¬ (applyCollectibleEffects clientShield95 heartData).playerShield ≤ 100 := by
  have h : (applyCollectibleEffects clientShield95 heartData).playerShield = 105 := by
    norm_num [applyCollectibleEffects, clientShield95, heartData]
  refine ⟨h, ?_⟩
  rw [h]
  norm_num

/-- Claim C9 (amended): for a shield collectible the displayed shield bar
width is capped at 100% (it is the minimum of the stored shield and 100),
while the stored playerShield value itself is incremented without cap. -/
theorem shield_bar_capped (st : ClientState) (d : CollectibleData)
    (h : d.effect = "shield") :
    (applyCollectibleEffects st d).shieldBarWidth =
      min (applyCollectibleEffects st d).playerShield 100 ∧
    (applyCollectibleEffects st d).playerShield =
      st.playerShield + (if d.effectValue == 0 then 10 else d.effectValue) ∧
    (applyCollectibleEffects st d).shieldBarWidth ≤ 100 := by
  by_cases hp : (d.points == 0) = true <;>
    simp [applyCollectibleEffects, h, hp, min_le_right]

/-- Witness for the amended C9 theorem: the shield bar after the concrete
over-cap pickup reads exactly min(105, 100). -/
theorem shield_bar_capped_witness :
    (applyCollectibleEffects clientShield95 heartData).shieldBarWidth =
      min (applyCollectibleEffects clientShield95 heartData).playerShield 100 ∧
    (applyCollectibleEffects clientShield95 heartData).shieldBarWidth ≤ 100 :=
  ⟨(shield_bar_capped clientShield95 heartData rfl).1,
   (shield_bar_capped clientShield95 heartData rfl).2.2⟩

/-- Claim C5 (corrected), counterexample: a car at distance 1.5 from a trap
of radius 1.0 is not classified as colliding by the code (the test compares
against the trap radius alone), although the distance is below the sum
1.2 + 1.0 = 2.2 of the two collision radii that the claim describes. -/
theorem trap_overlap_counterexample :
    trapOverlap ⟨3 / 2, 0, 0⟩ trapAtOrigin = false ∧
    sumRadiiTest ⟨3 / 2, 0, 0⟩ trapAtOrigin.position carCollisionRadius
      trapAtOrigin.collisionRadius := by
  constructor
  · show decide (sqDist ⟨3 / 2, 0, 0⟩ trapAtOrigin.position <
      trapAtOrigin.collisionRadius ^ 2) = false
    rw [decide_eq_false_iff_not]
    norm_num [sqDist, trapAtOrigin]
  · norm_num [sumRadiiTest, sqDist, trapAtOrigin, carCollisionRadius]

/-- Claim C5 (amended): the tree and bomb tests compare the distance with
the sum of the car radius and the obstacle radius, the vehicle-vehicle test
with the sum of the two identical car radii, while the trap test ignores
the car radius entirely (it is the sum test with car radius 0) and the
collectible test compares with twice the collectible radius (plus a height
gate), also ignoring the car radius. -/
theorem overlap_tests_vs_sum (carPos otherPos : Vec3) (t : Tree) (b : Bomb)
    (tr : Trap) (c : Collectible) (adjusted : Vec3) :
    (treeOverlap carPos t = true ↔
      sumRadiiTest carPos t.position carCollisionRadius t.radius) ∧
    (playerOverlap carPos otherPos = true ↔
      sumRadiiTest carPos otherPos carCollisionRadius carCollisionRadius) ∧
    (bombOverlap carPos b = true ↔
      sumRadiiTest carPos b.position carCollisionRadius b.collisionRadius) ∧
    (trapOverlap carPos tr = true ↔
      sumRadiiTest carPos tr.position 0 tr.collisionRadius) ∧
    (collectibleOverlap adjusted c = true ↔
      sumRadiiTest c.position adjusted c.collisionRadius c.collisionRadius ∧
        |c.position.y - adjusted.y| < 2) := by
  refine ⟨?_, ?_, ?_, ?_, ?_⟩
  · simp [treeOverlap, sumRadiiTest]
  · unfold playerOverlap sumRadiiTest
    rw [show carCollisionRadius * 2 = carCollisionRadius + carCollisionRadius
      from by ring]
    simp
  · simp [bombOverlap, sumRadiiTest]
  · simp [trapOverlap, sumRadiiTest]
  · unfold collectibleOverlap sumRadiiTest
    rw [show (c.collisionRadius * 2) ^ 2 =
      (c.collisionRadius + c.collisionRadius) ^ 2 from by ring]
    simp

theorem firstOverlap_spec {α : Type} (f : α → Bool) (l : List α) (x : α)
    (h : firstOverlap f l = some x) :
    f x = true ∧
      ∃ pre post, l = pre ++ x :: post ∧ ∀ u ∈ pre, f u = false := by
  induction l with
  | nil => cases h
  | cons a l ih =>
    by_cases ha : f a = true
    · have hx : a = x := by
        unfold firstOverlap at h
        rw [if_pos ha] at h
        exact Option.some.inj h
      subst hx
      exact ⟨ha, [], l, rfl, by simp⟩
    · have ha' : f a = false := by
        cases hfa : f a
        · rfl
        · exact absurd hfa ha
      have h' : firstOverlap f l = some x := by
        unfold firstOverlap at h
        rwa [if_neg ha] at h
      obtain ⟨hfx, pre, post, heq, hpre⟩ := ih h'
      refine ⟨hfx, a :: pre, post, by rw [heq]; rfl, ?_⟩
      intro u hu
      rcases List.mem_cons.mp hu with hu | hu
      · rwa [hu]
      · exact hpre u hu

theorem find?_map_pred {α : Type} (g : α → α) (p : α → Bool)
    (hg : ∀ c, p (g c) = p c) (l : List α) :
    (l.map g).find? p = (l.find? p).map g := by
  induction l with
  | nil => rfl
  | cons a l ih =>
    simp only [List.map_cons, List.find?_cons, hg]
    cases hp : p a
    · simpa using ih
    · rfl

theorem find?_updateCollectible (l : List Collectible) (d cid : String)
    (f : Collectible → Collectible) (hf : ∀ c0, (f c0).cid = c0.cid) :
    (updateCollectible l d f).find? (fun c => c.cid == cid) =
      (l.find? (fun c => c.cid == cid)).map
        (fun c => if c.cid == d then f c else c) := by
  unfold updateCollectible
  refine find?_map_pred _ _ ?_ l
  intro c0
  by_cases hd : (c0.cid == d) = true
  · simp [hd, hf]
  · simp [hd]

theorem applyCollectibleEffects_spawned (st : ClientState)
    (d : CollectibleData) :
    (applyCollectibleEffects st d).spawnedCollectibles =
      st.spawnedCollectibles := by
  unfold applyCollectibleEffects
  by_cases hp : (d.points == 0) = true <;>
    by_cases he : (d.effect == "shield") = true <;> simp [hp, he]

theorem collectItem_spawned (s : ClientState) (d : String) (c : Collectible)
    (h : findCollectible s d = some c) (hcol : c.collected = false) :
    (collectItem s d).spawnedCollectibles =
      updateCollectible s.spawnedCollectibles d
        (fun c0 => { c0 with collected := true, visible := false }) := by
  unfold collectItem
  rw [h]
  simp only [hcol, Bool.false_eq_true, if_false,
    apply_ite (fun st : ClientState => st.spawnedCollectibles),
    applyCollectibleEffects_spawned, ite_self]

theorem step_cases (adjusted : Vec3) (s : ClientState) (d : String) :
    (collectiblesCheckStep adjusted s d).spawnedCollectibles =
        s.spawnedCollectibles ∨
    collectiblesCheckStep adjusted s d = collectItem s d := by
  unfold collectiblesCheckStep
  cases hf : findCollectible s d with
  | none => left; rfl
  | some c =>
    by_cases h1 : (c.collected || !c.visible) = true
    · left; simp [h1]
    · by_cases h2 : collectibleOverlap adjusted c = true
      · right; simp [h1, h2]
      · left; simp [h1, h2]

theorem collectItem_find (s : ClientState) (d cid : String) (c : Collectible)
    (h : findCollectible s d = some c) (hcol : c.collected = false) :
    findCollectible (collectItem s d) cid =
      (findCollectible s cid).map
        (fun c0 => if c0.cid == d then
          { c0 with collected := true, visible := false } else c0) := by
  unfold findCollectible
  rw [collectItem_spawned s d c h hcol]
  exact find?_updateCollectible _ _ _ _ fun c0 => rfl

theorem step_preserves_collected (adjusted : Vec3) (s : ClientState)
    (d cid : String) (c : Collectible)
    (h : findCollectible s cid = some c) (hcol : c.collected = true) :
    ∃ c', findCollectible (collectiblesCheckStep adjusted s d) cid = some c' ∧
      c'.collected = true := by
  rcases step_cases adjusted s d with hs | hs
  · exact ⟨c, by unfold findCollectible at h ⊢; rw [hs]; exact h, hcol⟩
  · rw [hs]
    cases hf : findCollectible s d with
    | none =>
      refine ⟨c, ?_, hcol⟩
      unfold collectItem
      rw [hf]
      exact h
    | some c0 =>
      by_cases hc0 : c0.collected = true
      · refine ⟨c, ?_, hcol⟩
        unfold collectItem
        rw [hf]
        simpa [hc0] using h
      · have hc0' : c0.collected = false := by
          cases hv : c0.collected
          · rfl
          · exact absurd hv hc0
        rw [collectItem_find s d cid c0 hf hc0', h]
        by_cases hd : (c.cid == d) = true
        · exact ⟨_, rfl, by simp [hd]⟩
        · exact ⟨_, rfl, by simp [hd, hcol]⟩

theorem findCollectible_beq (s : ClientState) (cid : String) (c : Collectible)
    (h : findCollectible s cid = some c) : (c.cid == cid) = true := by
  unfold findCollectible at h
  have h1 := List.find?_some h
  simpa using h1

theorem step_preserves_other (adjusted : Vec3) (s : ClientState)
    (d cid : String) (hne : d ≠ cid) :
    findCollectible (collectiblesCheckStep adjusted s d) cid =
      findCollectible s cid := by
  rcases step_cases adjusted s d with hs | hs
  · unfold findCollectible
    rw [hs]
  · rw [hs]
    cases hf : findCollectible s d with
    | none =>
      unfold collectItem
      rw [hf]
    | some c0 =>
      by_cases hc0 : c0.collected = true
      · unfold collectItem
        rw [hf]
        simp [hc0]
      · have hc0' : c0.collected = false := by
          cases hv : c0.collected
          · rfl
          · exact absurd hv hc0
        rw [collectItem_find s d cid c0 hf hc0']
        cases hfc : findCollectible s cid with
        | none => rfl
        | some c =>
          have hcc : c.cid = cid := beq_iff_eq.mp (findCollectible_beq s cid c hfc)
          have hcd : ¬ c.cid = d := by
            rw [hcc]
            exact fun hh => hne hh.symm
          simp [hcd]

theorem step_collects (adjusted : Vec3) (s : ClientState) (cid : String)
    (c : Collectible) (h : findCollectible s cid = some c)
    (hcol : c.collected = false) (hvis : c.visible = true)
    (hov : collectibleOverlap adjusted c = true) :
    ∃ c', findCollectible (collectiblesCheckStep adjusted s cid) cid = some c' ∧
      c'.collected = true := by
  have hcond : (c.collected || !c.visible) = false := by
    rw [hcol, hvis]
    rfl
  have hstep : collectiblesCheckStep adjusted s cid = collectItem s cid := by
    unfold collectiblesCheckStep
    rw [h]
    simp [hcond, hov]
  rw [hstep, collectItem_find s cid cid c h hcol, h]
  have hcc : (c.cid == cid) = true := findCollectible_beq s cid c h
  exact ⟨_, rfl, by simp [hcc]⟩

theorem fold_preserves_collected (adjusted : Vec3) (ids : List String)
    (s : ClientState) (cid : String) (c : Collectible)
    (h : findCollectible s cid = some c) (hcol : c.collected = true) :
    ∃ c', findCollectible (ids.foldl (collectiblesCheckStep adjusted) s) cid
        = some c' ∧ c'.collected = true := by
  induction ids generalizing s c with
  | nil => exact ⟨c, h, hcol⟩
  | cons d ids ih =>
    rw [List.foldl_cons]
    obtain ⟨c', h', hc'⟩ := step_preserves_collected adjusted s d cid c h hcol
    exact ih _ _ h' hc'

theorem fold_collects (adjusted : Vec3) (ids : List String) (s : ClientState)
    (cid : String) (c : Collectible) (hmem : cid ∈ ids)
    (h : findCollectible s cid = some c) (hcol : c.collected = false)
    (hvis : c.visible = true) (hov : collectibleOverlap adjusted c = true) :
    ∃ c', findCollectible (ids.foldl (collectiblesCheckStep adjusted) s) cid
        = some c' ∧ c'.collected = true := by
  induction ids generalizing s with
  | nil => cases hmem
  | cons d ids ih =>
    rw [List.foldl_cons]
    rcases eq_or_ne d cid with hd | hd
    · subst hd
      obtain ⟨c', h', hc'⟩ := step_collects adjusted s d c h hcol hvis hov
      exact fold_preserves_collected adjusted ids _ d c' h' hc'
    · have hmem' : cid ∈ ids := by
        rcases List.mem_cons.mp hmem with h1 | h1
        · exact absurd h1.symm hd
        · exact h1
      have hpres := step_preserves_other adjusted s d cid hd
      exact ih _ hmem' (hpres.trans h)

/-- Claim C4 (corrected), counterexample: two uncollected visible gold
coins both overlap the car in the same tick, and the collectibles check
collects both of them in that tick, so the vehicle-collectible category
processes more than the first overlapping pair. -/
theorem collectibles_two_in_one_tick :
    (c4Tick.spawnedCollectibles.filter (fun c => c.collected)).length = 2 ∧
    ¬ (c4Tick.spawnedCollectibles.filter (fun c => c.collected)).length ≤ 1 := by
  have h : (c4Tick.spawnedCollectibles.filter (fun c => c.collected)).length
      = 2 := by
    norm_num [c4Tick, collectiblesCheckCollisions, collectiblesCheckStep,
      lowerCarPos, clientTwoNearGold, goldAt, goldData, findCollectible,
      collectItem, updateCollectible, applyCollectibleEffects,
      collectibleOverlap, sqDist,
      (show ¬("" : String) = "shield" by decide),
      (show ¬("gold-2" : String) = "gold-1" by decide),
      (show ¬("gold-1" : String) = "gold-2" by decide)]
  refine ⟨h, ?_⟩
  rw [h]
  norm_num

/-- Claim C4 (amended): the vehicle-vehicle, vehicle-tree and vehicle-bomb
checks early exit, processing exactly the first overlapping pair in their
scan order (bombs are scanned from the end of the array backwards, skipping
inactive ones), whereas the trap check processes every overlapping trap and
the collectible check collects every uncollected visible overlapping
collectible in the same tick. -/
theorem per_category_processing :
    (∀ (carPos : Vec3) (trees : List Tree) (t : Tree),
      checkTreeCollisions carPos trees = some t →
        treeOverlap carPos t = true ∧
        ∃ pre post, trees = pre ++ t :: post ∧
          ∀ u ∈ pre, treeOverlap carPos u = false) ∧
    (∀ (carPos : Vec3) (others : List Vec3) (q : Vec3),
      checkPlayerCollisions carPos others = some q →
        playerOverlap carPos q = true ∧
        ∃ pre post, others = pre ++ q :: post ∧
          ∀ u ∈ pre, playerOverlap carPos u = false) ∧
    (∀ (carPos : Vec3) (bombs : List Bomb) (b : Bomb),
      checkBombCollisions carPos bombs = some b →
        (b.isActive && bombOverlap carPos b) = true ∧
        ∃ pre post, bombs.reverse = pre ++ b :: post ∧
          ∀ u ∈ pre, (u.isActive && bombOverlap carPos u) = false) ∧
    (∀ (carPos : Vec3) (traps : List Trap) (tr : Trap),
      tr ∈ traps → trapOverlap carPos tr = true →
        tr ∈ trapsCheckCollisions carPos traps) ∧
    (∀ (s : ClientState) (carPos : Vec3) (cid : String) (c : Collectible),
      findCollectible s cid = some c → c.collected = false →
      c.visible = true → collectibleOverlap (lowerCarPos carPos) c = true →
        ∃ c', findCollectible (collectiblesCheckCollisions s carPos) cid
            = some c' ∧ c'.collected = true) := by
  refine ⟨?_, ?_, ?_, ?_, ?_⟩
  · intro carPos trees t h
    exact firstOverlap_spec (treeOverlap carPos) trees t h
  · intro carPos others q h
    exact firstOverlap_spec (playerOverlap carPos) others q h
  · intro carPos bombs b h
    exact firstOverlap_spec _ bombs.reverse b h
  · intro carPos traps tr hmem hov
    unfold trapsCheckCollisions
    exact List.mem_filter.mpr ⟨hmem, hov⟩
  · intro s carPos cid c h hcol hvis hov
    have hcc : (c.cid == cid) = true := findCollectible_beq s cid c h
    have hcmem : c ∈ s.spawnedCollectibles := by
      unfold findCollectible at h
      exact List.mem_of_find?_eq_some h
    have hmem : cid ∈ s.spawnedCollectibles.map (fun c0 => c0.cid) :=
      List.mem_map.mpr ⟨c, hcmem, beq_iff_eq.mp hcc⟩
    exact fold_collects (lowerCarPos carPos) _ s cid c hmem h hcol hvis hov

/-- Witness for the amended C4 theorem: with a non-overlapping tree first
in the list, the tree check reports the second tree, which does overlap;
both of two overlapping traps are processed in one tick; and the
overlapping uncollected coin gold-1 of the two-coin scenario is collected
by the tick. -/
theorem per_category_processing_witness :
    treeOverlap ⟨0, 0, 0⟩ treeNear = true ∧
    trapAtOrigin ∈ trapsCheckCollisions ⟨0, 0, 0⟩ [trapAtOrigin, trapNearOrigin] ∧
    trapNearOrigin ∈ trapsCheckCollisions ⟨0, 0, 0⟩ [trapAtOrigin, trapNearOrigin] ∧
    (∃ c', findCollectible
        (collectiblesCheckCollisions clientTwoNearGold ⟨0, 3 / 10, 0⟩)
        "gold-1" = some c' ∧ c'.collected = true) :=
  ⟨(per_category_processing.1 ⟨0, 0, 0⟩ [treeFar, treeNear] treeNear
      (by norm_num [checkTreeCollisions, firstOverlap, treeOverlap, treeFar,
        treeNear, sqDist, carCollisionRadius])).1,
   per_category_processing.2.2.2.1 ⟨0, 0, 0⟩ [trapAtOrigin, trapNearOrigin]
      trapAtOrigin (by simp)
      (by norm_num [trapOverlap, trapAtOrigin, sqDist]),
   per_category_processing.2.2.2.1 ⟨0, 0, 0⟩ [trapAtOrigin, trapNearOrigin]
      trapNearOrigin (by simp)
      (by norm_num [trapOverlap, trapNearOrigin, sqDist]),
   per_category_processing.2.2.2.2 clientTwoNearGold ⟨0, 3 / 10, 0⟩ "gold-1"
      (goldAt "gold-1" ⟨3 / 10, 0, 0⟩)
      (by norm_num [findCollectible, clientTwoNearGold, goldAt]) rfl rfl
      (by norm_num [collectibleOverlap, lowerCarPos, goldAt, sqDist])⟩

theorem markCollected_playerScore (st : ClientState) (cid pid : String) :
    (markCollected st cid pid).playerScore = st.playerScore := by
  unfold markCollected
  cases hf : findCollectible st cid with
  | none => rfl
  | some c =>
    by_cases hr : c.data.respawn = true
    · simp [hr]
    · simp [hr]

theorem scores_map (l : List (String × ClientState)) (sender itemId : String) :
    (l.map (fun p =>
        if p.1 == sender then p else (p.1, markCollected p.2 itemId sender))).map
        (fun p => (p.1, p.2.playerScore)) =
      l.map (fun p => (p.1, p.2.playerScore)) := by
  induction l with
  | nil => rfl
  | cons a l ih =>
    simp only [List.map_cons, ih]
    by_cases ha : (a.1 == sender) = true
    · rw [if_pos ha]
    · rw [if_neg ha]
      simp [markCollected_playerScore]

/-- Claim C2 (corrected), counterexample: the spec scenario with A
collecting gold-1 (value 50) and a racing collectibleCollected for gold-1
from B delivered afterwards leaves three scheduled respawn timers for
gold-1 across the system (two at A, one at B), not exactly one. -/
theorem dup_delivery_counterexample :
    systemTimers c2Scenario "gold-1" = 3 ∧
    systemTimers c2Scenario "gold-1" ≠ 1 := by
  have h : systemTimers c2Scenario "gold-1" = 3 := by
    norm_num [c2Scenario, deliverCollectibleCollected, localCollectAndSend,
      updateClient, handleCollectibleCollected, lookupEntry, setEntry,
      markCollected, findCollectible, collectItem, updateCollectible,
      applyCollectibleEffects, twoClientSystem, clientWithGold, goldAt,
      goldData, systemTimers, timersFor,
      (show ¬("" : String) = "shield" by decide),
      (show ¬("B" : String) = "A" by decide),
      (show ¬("A" : String) = "B" by decide)]
  refine ⟨h, ?_⟩
  rw [h]
  norm_num

/-- Claim C2 (amended): the relay fan-out never changes any client score,
and collectItem is a no-op on an already-collected local copy, so the point
value is awarded exactly once (A scores 50, B scores 0); but markCollected
schedules a respawn timer on every delivery regardless of the collected
flag, so after the duplicate delivery A holds two respawn timers for
gold-1. -/
theorem dup_delivery_amended :
    (∀ (sys : SystemState) (sender itemId : String) (now : Nat),
      clientScores (deliverCollectibleCollected sys sender itemId now) =
        clientScores sys) ∧
    (∀ (st : ClientState) (cid : String),
      Option.all (fun c => c.collected) (findCollectible st cid) = true →
        collectItem st cid = st) ∧
    scoreOf c2Scenario "A" = 50 ∧ scoreOf c2Scenario "B" = 0 ∧
    (lookupEntry c2Scenario.clients "A").map (fun c => timersFor c "gold-1") =
      some 2 := by
  refine ⟨?_, ?_, ?_⟩
  · intro sys sender itemId now
    simpa [clientScores, deliverCollectibleCollected] using
      scores_map sys.clients sender itemId
  · intro st cid h
    unfold collectItem
    cases hf : findCollectible st cid with
    | none => rfl
    | some c =>
      rw [hf] at h
      simp only [Option.all] at h
      simp [h]
  · refine ⟨?_, ?_, ?_⟩ <;>
      norm_num [c2Scenario, deliverCollectibleCollected, localCollectAndSend,
        updateClient, handleCollectibleCollected, lookupEntry, setEntry,
        markCollected, findCollectible, collectItem, updateCollectible,
        applyCollectibleEffects, twoClientSystem, clientWithGold, goldAt,
        goldData, systemTimers, timersFor, scoreOf,
        (show ¬("" : String) = "shield" by decide),
        (show ¬("B" : String) = "A" by decide),
        (show ¬("A" : String) = "B" by decide)]

/-- Witness for the amended C2 theorem: delivering a duplicate to a
two-client system preserves all scores, and collectItem on an already
collected local copy changes nothing. -/
theorem dup_delivery_amended_witness :
    clientScores (deliverCollectibleCollected twoClientSystem "B" "gold-1" 5) =
      clientScores twoClientSystem ∧
    collectItem clientGoldCollected "gold-1" = clientGoldCollected :=
  ⟨dup_delivery_amended.1 twoClientSystem "B" "gold-1" 5,
   dup_delivery_amended.2.1 clientGoldCollected "gold-1"
     (by simp [findCollectible, clientGoldCollected, goldAt, Option.all])⟩

end OpenRoad
